import Mathlib

/-!
Verification of the tvara agent-orchestration core.

This file gives a shallow embedding of the workflow execution engine
(`tvara/core/workflow.py`), the agent tool-call resolution loop
(`tvara/core/agent.py`) and the prompt renderer (`tvara/core/prompt.py`),
together with the JSON-extraction helpers those modules use, and proves
properties of the embedded definitions.

Conventions of the embedding:
* Python strings are Lean `String`s; machine text operations (`lower`,
  substring `in`, `strip`) are embedded over ASCII, matching every string
  constant the code manipulates.
* Python exceptions are modelled with `Except String`, the error carrying
  `str(e)`.
* The language-model backend and the tools/connectors are opaque
  collaborators, modelled as functions, exactly as the code treats them.
* JSON values (results of `json.loads`) are modelled by the mutual
  inductive `Json`/`JsonList`/`JsonFields` below; `json.loads` itself is
  embedded as a fuel-indexed recursive-descent parser `pyJsonLoads`.
-/

set_option maxRecDepth 16384

namespace Tvara

/-! ### Python string primitives -/

/-- Python whitespace characters recognised by `str.strip` and by the
regular-expression class `\s` (ASCII range, which is all the code uses). -/
def isPyWs (c : Char) : Bool :=
  c = ' ' || c = '\t' || c = '\n' || c = '\r' || c = '\x0b' || c = '\x0c'

/-- Embedding of Python `str.lower()` (ASCII). -/
def lowerStr (s : String) : String :=
  String.mk (s.data.map Char.toLower)

/-- Scan for `needle` as a contiguous sublist of the haystack. -/
def subScan (needle : List Char) : List Char → Bool
  | [] => needle.isEmpty
  | c :: rest => needle.isPrefixOf (c :: rest) || subScan needle rest

/-- Embedding of Python `a in b` for strings: `strContainsB b a` is
`a in b`. -/
def strContainsB (hay sub : String) : Bool :=
  subScan sub.data hay.data

/-- Embedding of Python `str.strip()` (with no argument). -/
def pyStrip (s : String) : String :=
  String.mk (((s.data.dropWhile isPyWs).reverse.dropWhile isPyWs).reverse)

/-! ### JSON values

A mutual inductive is used (rather than nesting `List`) so that all
recursive functions over values are structural and reduce definitionally. -/

mutual
inductive Json where
  | null : Json
  | bool (b : Bool) : Json
  | num (raw : String) : Json
  | str (s : String) : Json
  | arr (xs : JsonList) : Json
  | obj (fs : JsonFields) : Json

inductive JsonList where
  | nil : JsonList
  | cons (hd : Json) (tl : JsonList) : JsonList

inductive JsonFields where
  | nil : JsonFields
  | cons (key : String) (val : Json) (tl : JsonFields) : JsonFields
end

/-- Membership/indexing into a parsed JSON object.  Python `dict` built by
`json.loads` keeps the last value bound to a duplicated key, so the scan
prefers later bindings. -/
def dictGet : JsonFields → String → Option Json
  | .nil, _ => none
  | .cons k v tl, key =>
    match dictGet tl key with
    | some r => some r
    | none => if k = key then some v else none

/-- Python `value == "lit"` where `value` is an arbitrary loaded JSON
value: true exactly when the value is that string. -/
def jsonEqStr (j : Json) (lit : String) : Bool :=
  match j with
  | .str s => s = lit
  | _ => false

/-- Python truthiness of a loaded JSON value (`if x:`). -/
def jsonTruthy (j : Json) : Bool :=
  match j with
  | .null => false
  | .bool b => b
  | .num raw => raw.data.any (fun c => '1' ≤ c && c ≤ '9')
  | .str s => s ≠ ""
  | .arr .nil => false
  | .arr _ => true
  | .obj .nil => false
  | .obj _ => true

/-! ### Embedding of `json.loads`

A strict recursive-descent parser over the character list, indexed by
fuel; the top-level wrapper supplies ample fuel, rejects trailing
garbage, and returns `none` on any error (the code always wraps
`json.loads` in a `try`/`except` returning `None`). -/

/-- Skip JSON whitespace. -/
def skipWs : List Char → List Char
  | [] => []
  | c :: rest => if isPyWs c then skipWs rest else c :: rest

/-- Decode one hexadecimal digit. -/
def hexVal (c : Char) : Option Nat :=
  if '0' ≤ c ∧ c ≤ '9' then some (c.toNat - '0'.toNat)
  else if 'a' ≤ c ∧ c ≤ 'f' then some (c.toNat - 'a'.toNat + 10)
  else if 'A' ≤ c ∧ c ≤ 'F' then some (c.toNat - 'A'.toNat + 10)
  else none

/-- Parse the remainder of a JSON string literal (the opening quote
already consumed), returning the decoded text and the rest of the
input. -/
def parseStringRest : List Char → Option (String × List Char)
  | [] => none
  | '"' :: rest => some ("", rest)
  | '\\' :: esc =>
    match esc with
    | '"' :: rest => (parseStringRest rest).map (fun r => (⟨'"' :: r.1.data⟩, r.2))
    | '\\' :: rest => (parseStringRest rest).map (fun r => (⟨'\\' :: r.1.data⟩, r.2))
    | '/' :: rest => (parseStringRest rest).map (fun r => (⟨'/' :: r.1.data⟩, r.2))
    | 'b' :: rest => (parseStringRest rest).map (fun r => (⟨'\x08' :: r.1.data⟩, r.2))
    | 'f' :: rest => (parseStringRest rest).map (fun r => (⟨'\x0c' :: r.1.data⟩, r.2))
    | 'n' :: rest => (parseStringRest rest).map (fun r => (⟨'\n' :: r.1.data⟩, r.2))
    | 'r' :: rest => (parseStringRest rest).map (fun r => (⟨'\r' :: r.1.data⟩, r.2))
    | 't' :: rest => (parseStringRest rest).map (fun r => (⟨'\t' :: r.1.data⟩, r.2))
    | 'u' :: h1 :: h2 :: h3 :: h4 :: rest =>
      match hexVal h1, hexVal h2, hexVal h3, hexVal h4 with
      | some a, some b, some c, some d =>
        let n := ((a * 16 + b) * 16 + c) * 16 + d
        (parseStringRest rest).map (fun r => (⟨Char.ofNat n :: r.1.data⟩, r.2))
      | _, _, _, _ => none
    | _ => none
  | c :: rest => (parseStringRest rest).map (fun r => (⟨c :: r.1.data⟩, r.2))

/-- Is this character allowed inside a JSON number token? -/
def isNumChar (c : Char) : Bool :=
  ('0' ≤ c && c ≤ '9') || c = '-' || c = '+' || c = '.' || c = 'e' || c = 'E'

/-- Greedily take a JSON number token (validation is coarse: the token is
kept raw, and no claim depends on numeric evaluation). -/
def takeNumToken : List Char → List Char × List Char
  | [] => ([], [])
  | c :: rest =>
    if isNumChar c then
      let (tok, rem) := takeNumToken rest
      (c :: tok, rem)
    else ([], c :: rest)

mutual
/-- Parse one JSON value. -/
def parseValue : Nat → List Char → Option (Json × List Char)
  | 0, _ => none
  | fuel + 1, input =>
    match skipWs input with
    | [] => none
    | '{' :: rest =>
      (parseFieldsOpen fuel rest).map (fun r => (Json.obj r.1, r.2))
    | '[' :: rest =>
      (parseItemsOpen fuel rest).map (fun r => (Json.arr r.1, r.2))
    | '"' :: rest =>
      (parseStringRest rest).map (fun r => (Json.str r.1, r.2))
    | 't' :: 'r' :: 'u' :: 'e' :: rest => some (Json.bool true, rest)
    | 'f' :: 'a' :: 'l' :: 's' :: 'e' :: rest => some (Json.bool false, rest)
    | 'n' :: 'u' :: 'l' :: 'l' :: rest => some (Json.null, rest)
    | c :: rest =>
      if c = '-' || ('0' ≤ c && c ≤ '9') then
        let (tok, rem) := takeNumToken (c :: rest)
        some (Json.num (String.mk tok), rem)
      else none

/-- Parse the inside of an object, the opening brace already consumed. -/
def parseFieldsOpen : Nat → List Char → Option (JsonFields × List Char)
  | 0, _ => none
  | fuel + 1, input =>
    match skipWs input with
    | '}' :: rest => some (JsonFields.nil, rest)
    | other => parseFieldsRest fuel other

/-- Parse one or more `"key": value` members followed by `}` . -/
def parseFieldsRest : Nat → List Char → Option (JsonFields × List Char)
  | 0, _ => none
  | fuel + 1, input =>
    match skipWs input with
    | '"' :: rest =>
      match parseStringRest rest with
      | none => none
      | some (key, afterKey) =>
        match skipWs afterKey with
        | ':' :: afterColon =>
          match parseValue fuel afterColon with
          | none => none
          | some (v, afterVal) =>
            match skipWs afterVal with
            | ',' :: afterComma =>
              (parseFieldsRest fuel afterComma).map
                (fun r => (JsonFields.cons key v r.1, r.2))
            | '}' :: afterBrace => some (JsonFields.cons key v .nil, afterBrace)
            | _ => none
        | _ => none
    | _ => none

/-- Parse the inside of an array, the opening bracket already consumed. -/
def parseItemsOpen : Nat → List Char → Option (JsonList × List Char)
  | 0, _ => none
  | fuel + 1, input =>
    match skipWs input with
    | ']' :: rest => some (JsonList.nil, rest)
    | other => parseItemsRest fuel other

/-- Parse one or more array items followed by `]` . -/
def parseItemsRest : Nat → List Char → Option (JsonList × List Char)
  | 0, _ => none
  | fuel + 1, input =>
    match parseValue fuel input with
    | none => none
    | some (v, afterVal) =>
      match skipWs afterVal with
      | ',' :: afterComma =>
        (parseItemsRest fuel afterComma).map
          (fun r => (JsonList.cons v r.1, r.2))
      | ']' :: afterBracket => some (JsonList.cons v .nil, afterBracket)
      | _ => none
end

/-- Embedding of `json.loads` under the surrounding `try`/`except`:
`some` on a single well-formed document with nothing but whitespace
after it, `none` otherwise. -/
def pyJsonLoads (s : String) : Option Json :=
  match parseValue (2 * s.length + 4) s.data with
  | some (j, rest) => if (skipWs rest).isEmpty then some j else none
  | none => none

/-! ### Python display of loaded JSON values

The code interpolates loaded JSON values into f-strings (history entries,
status tags, error messages); `pyStr` embeds Python `str()` of such a
value and `pyRepr` embeds `repr()`, which `str()` falls back to inside
containers. -/

mutual
/-- Python `repr()` of a loaded JSON value. -/
def pyRepr : Json → String
  | .null => "None"
  | .bool true => "True"
  | .bool false => "False"
  | .num raw => raw
  | .str s => "\x27" ++ s ++ "\x27"
  | .arr xs => "[" ++ pyReprItems xs ++ "]"
  | .obj fs => "\x7b" ++ pyReprFields fs ++ "\x7d"

/-- Comma-separated `repr()` of list elements. -/
def pyReprItems : JsonList → String
  | .nil => ""
  | .cons x .nil => pyRepr x
  | .cons x tl => pyRepr x ++ ", " ++ pyReprItems tl

/-- Comma-separated `repr()` of dict members. -/
def pyReprFields : JsonFields → String
  | .nil => ""
  | .cons k v .nil => "\x27" ++ k ++ "\x27: " ++ pyRepr v
  | .cons k v tl => "\x27" ++ k ++ "\x27: " ++ pyRepr v ++ ", " ++ pyReprFields tl
end

/-- Python `str()` of a loaded JSON value (bare text for strings,
`repr()`-style otherwise). -/
def pyStr (j : Json) : String :=
  match j with
  | .str s => s
  | _ => pyRepr j

/-- Python `str()` of an optional value (`None` displays as `None`). -/
def pyStrOpt (j : Option Json) : String :=
  match j with
  | some v => pyStr v
  | none => "None"

/-! ### Embedding of `json.dumps(..., indent=2)` -/

/-- JSON string-literal quoting as produced by `json.dumps` (default
`ensure_ascii` escaping of the characters the repository ever emits). -/
def dumpsQuote (s : String) : String :=
  "\"" ++ String.join (s.data.map (fun c =>
    if c = '"' then "\\\""
    else if c = '\\' then "\\\\"
    else if c = '\n' then "\\n"
    else if c = '\t' then "\\t"
    else if c = '\r' then "\\r"
    else String.singleton c)) ++ "\""

/-- Indentation prefix used by `json.dumps(..., indent=2)`. -/
def dumpsPad (lvl : Nat) : String :=
  String.mk (List.replicate (2 * lvl) ' ')

mutual
/-- Embedding of `json.dumps(value, indent=2)` at nesting level `lvl`. -/
def dumps2 : Json → Nat → String
  | .null, _ => "null"
  | .bool true, _ => "true"
  | .bool false, _ => "false"
  | .num raw, _ => raw
  | .str s, _ => dumpsQuote s
  | .arr .nil, _ => "[]"
  | .arr xs, lvl =>
    "[\n" ++ dumps2Items xs (lvl + 1) ++ "\n" ++ dumpsPad lvl ++ "]"
  | .obj .nil, _ => "\x7b\x7d"
  | .obj fs, lvl =>
    "\x7b\n" ++ dumps2Fields fs (lvl + 1) ++ "\n" ++ dumpsPad lvl ++ "\x7d"

/-- Array items of `json.dumps(..., indent=2)`, one per line. -/
def dumps2Items : JsonList → Nat → String
  | .nil, _ => ""
  | .cons x .nil, lvl => dumpsPad lvl ++ dumps2 x lvl
  | .cons x tl, lvl => dumpsPad lvl ++ dumps2 x lvl ++ ",\n" ++ dumps2Items tl lvl

/-- Object members of `json.dumps(..., indent=2)`, one per line. -/
def dumps2Fields : JsonFields → Nat → String
  | .nil, _ => ""
  | .cons k v .nil, lvl => dumpsPad lvl ++ dumpsQuote k ++ ": " ++ dumps2 v lvl
  | .cons k v tl, lvl =>
    dumpsPad lvl ++ dumpsQuote k ++ ": " ++ dumps2 v lvl ++ ",\n" ++ dumps2Fields tl lvl
end

/-! ### JSON extraction helpers of the two modules

`Agent._extract_json` applies the regular expression `(\x7b.*\x7d)` with
`DOTALL` (greedy: from the first opening brace to the last closing brace)
and then `json.loads`; `Workflow._extract_json` strips the text, removes
Markdown code fences, and `json.loads` the whole remainder. -/

/-- Drop characters up to (and keeping) the first `\x7b`. -/
def fromFirstLBrace : List Char → Option (List Char)
  | [] => none
  | '{' :: rest => some ('{' :: rest)
  | _ :: rest => fromFirstLBrace rest

/-- Drop characters up to (and keeping) the first `\x7d`; used on the
reversed input to cut at the last closing brace. -/
def fromFirstRBrace : List Char → Option (List Char)
  | [] => none
  | '}' :: rest => some ('}' :: rest)
  | _ :: rest => fromFirstRBrace rest

/-- The text matched by `re.search(r"(\x7b.*\x7d)", text, re.DOTALL)`:
everything from the first opening brace to the last closing brace, when
such a span exists. -/
def pyRegexBraces (s : String) : Option String :=
  match fromFirstLBrace s.data with
  | none => none
  | some fromBrace =>
    match fromFirstRBrace fromBrace.reverse with
    | none => none
    | some revSpan => some (String.mk revSpan.reverse)

/-- Embedding of `Agent._extract_json`. -/
def agentExtractJson (text : String) : Option Json :=
  match pyRegexBraces text with
  | none => none
  | some span => pyJsonLoads span

/-- Embedding of `Agent._extract_tool_call`: the value stored under a
`tool_call` key of the extracted JSON object, when there is one. -/
def agentExtractToolCall (response : String) : Option Json :=
  match agentExtractJson response with
  | some (.obj fs) => dictGet fs "tool_call"
  | _ => none

/-- Embedding of Python `text.startswith(pre)` over the character
list (the byte-level core primitive does not reduce definitionally). -/
def pyStartsWith (s pre : String) : Bool :=
  pre.data.isPrefixOf s.data

/-- Removal of a leading code fence: `re.sub(r"^` ``` `(?:json)?\s*", "", text)`. -/
def stripLeadFence (s : String) : String :=
  if pyStartsWith s "```" then
    let afterTicks := s.data.drop 3
    let afterJson :=
      if "json".data.isPrefixOf afterTicks then afterTicks.drop 4 else afterTicks
    String.mk (afterJson.dropWhile isPyWs)
  else s

/-- Removal of a trailing code fence: `re.sub(r"\s*` ``` `$", "", text)`. -/
def stripTrailFence (s : String) : String :=
  if "```".data.isPrefixOf s.data.reverse then
    String.mk (((s.data.reverse.drop 3).dropWhile isPyWs).reverse)
  else s

/-- Embedding of `Workflow._extract_json`: strip, remove code fences when
the stripped text starts with one, then `json.loads` the whole text. -/
def wfExtractJson (text : String) : Option Json :=
  let t := pyStrip text
  let t := if pyStartsWith t "```" then stripTrailFence (stripLeadFence t) else t
  pyJsonLoads t

/-! ### Agent embedding (`tvara/core/agent.py`)

A tool is opaque to the loop: a name plus a `run` operation that either
returns a result string or raises (`Except.error` carrying `str(e)`).
The model backend is an opaque total function from the rendered prompt to
the response text.  `self.prompt.render()` is constant during one `run`,
so the loop is parametrised by its value `basePrompt`. -/

/-- A tool as seen by `Agent._execute_tool`. -/
structure ATool where
  name : String
  run : Json → Except String String

/-- Python `repr` of a list of strings, as interpolated into the
tool-not-found message. -/
def pyStrList (names : List String) : String :=
  "[" ++ String.intercalate ", " (names.map (fun n => "\x27" ++ n ++ "\x27")) ++ "]"

/-- First pass of `Agent._execute_tool`: scan for `tool.name ==
tool_name` (the candidate name is the loaded JSON value, equal to a
tool name only when it is that string). -/
def findExact (tools : List ATool) (nameJson : Json) : Option ATool :=
  match tools with
  | [] => none
  | t :: ts => if jsonEqStr nameJson t.name then some t else findExact ts nameJson

/-- Second pass of `Agent._execute_tool`: case-insensitive substring
match in either direction, first hit in list order. -/
def findSub (tools : List ATool) (s : String) : Option ATool :=
  match tools with
  | [] => none
  | t :: ts =>
    if strContainsB (lowerStr t.name) (lowerStr s)
        || strContainsB (lowerStr s) (lowerStr t.name) then some t
    else findSub ts s

/-- The `ValueError` message raised when no tool matches. -/
def toolNotFoundMsg (shown : String) (tools : List ATool) : String :=
  "Tool \x27" ++ shown ++ "\x27 not found. Available tools: "
    ++ pyStrList (tools.map (fun t => t.name))

/-- Embedding of `Agent._execute_tool`: exact-name pass, then the
substring pass (whose first step evaluates `tool_name.lower()`, raising
`AttributeError` when the candidate name is not a string and some tool
exists), then the `ValueError`. -/
def executeTool (tools : List ATool) (nameJson : Json) (inputJson : Json) :
    Except String String :=
  match findExact tools nameJson with
  | some t => t.run inputJson
  | none =>
    match nameJson with
    | .str s =>
      match findSub tools s with
      | some t => t.run inputJson
      | none => .error (toolNotFoundMsg s tools)
    | _ =>
      if tools.isEmpty then .error (toolNotFoundMsg (pyStr nameJson) tools)
      else .error "AttributeError: object has no attribute lower"

/-- Embedding of `Agent._build_prompt_with_history`. -/
def buildPromptWithHistory (basePrompt : String) (history : List String) : String :=
  basePrompt ++ "\n\nConversation:\n" ++ String.intercalate "\n" history
    ++ "\n\nPlease respond:"

/-- Embedding of `Agent._build_basic_prompt`. -/
def buildBasicPrompt (inputData : String) : String :=
  "You are an AI assistant that listens carefully to the user\x27s input and provides a thoughtful response.\n\nUser input: "
    ++ inputData
    ++ "\n\nPlease provide a helpful and informative response to the user\x27s question or request."

/-- The fixed message returned when the loop exhausts `max_iterations`. -/
def maxIterationsMsg : String :=
  "Maximum iterations reached. Please try rephrasing your request."

/-- Observable outcome of one `Agent.run` invocation: the returned value
(or the propagated exception), the final conversation history, and the
number of model calls performed. -/
structure RunOutcome where
  result : Except String String
  history : List String
  modelCalls : Nat

/-- The recoverable-hiccup phrase check of the loop. -/
def hasFailurePhrase (response : String) : Bool :=
  strContainsB (lowerStr response) "tool failed"
    || strContainsB (lowerStr response) "error executing tool"

/-- History entry appended when a response carries no usable tool call. -/
def noToolCallEntry (response : String) : String :=
  "Assistant response without tool call: " ++ response

/-- One `for` body plus recursion of `Agent.run`'s tool loop, indexed by
the remaining iterations.  The `try`/`except` around the tool execution
is embedded case by case: a non-object `tool_call` value or one without
a `tool_name` key makes the `except` handler itself raise while
formatting its message, so those propagate out of `run`. -/
def agentLoop (basePrompt : String) (tools : List ATool) (model : String → String) :
    Nat → List String → Nat → RunOutcome
  | 0, history, calls => ⟨.ok maxIterationsMsg, history, calls⟩
  | fuel + 1, history, calls =>
    let response := model (buildPromptWithHistory basePrompt history)
    let toolCall := agentExtractToolCall response
    let calls := calls + 1
    if response = "" then
      agentLoop basePrompt tools model fuel (history ++ [noToolCallEntry response]) calls
    else
      match toolCall with
      | none =>
        if hasFailurePhrase response then
          agentLoop basePrompt tools model fuel (history ++ [noToolCallEntry response]) calls
        else ⟨.ok response, history, calls⟩
      | some tcJson =>
        match tcJson with
        | .obj fs =>
          match dictGet fs "tool_name" with
          | none => ⟨.error "\x27tool_name\x27", history, calls⟩
          | some nameJson =>
            match dictGet fs "tool_input" with
            | none =>
              agentLoop basePrompt tools model fuel
                (history
                  ++ ["Error executing tool \x27" ++ pyStr nameJson ++ "\x27: \x27tool_input\x27"])
                calls
            | some inputJson =>
              match executeTool tools nameJson inputJson with
              | .ok toolResult =>
                agentLoop basePrompt tools model fuel
                  (history
                    ++ ["Assistant called tool \x27" ++ pyStr nameJson
                          ++ "\x27 with input: " ++ pyStr inputJson,
                        "Tool result: " ++ toolResult])
                  calls
              | .error e =>
                agentLoop basePrompt tools model fuel
                  (history
                    ++ ["Error executing tool \x27" ++ pyStr nameJson ++ "\x27: " ++ e])
                  calls
        | _ => ⟨.error "TypeError: tool call value is not a dict", history, calls⟩

/-- Embedding of `Agent.run`: basic mode (no tools) answers with a
single model call and no JSON parsing; otherwise the seeded tool loop
runs for at most `max_iterations` rounds. -/
def agentRun (basePrompt : String) (tools : List ATool) (model : String → String)
    (maxIter : Nat) (inputData : String) : RunOutcome :=
  if tools.isEmpty then
    ⟨.ok (model (buildBasicPrompt inputData)), [], 1⟩
  else
    agentLoop basePrompt tools model maxIter ["User input: " ++ inputData] 0

/-! ### Workflow embedding (`tvara/core/workflow.py`)

At the workflow level the worker and manager agents are opaque
collaborators, exactly as the orchestrator treats them: a name, an
object identity (Python `in` on the agents list compares identities),
and a `run` operation that returns a string or raises. -/

/-- A worker/manager agent as the workflow sees it. -/
structure WAgent where
  name : String
  pyid : Nat
  run : Json → Except String String

/-- The `WorkflowMode` enumeration. -/
inductive WorkflowMode where
  | sequential
  | supervised
  | parallel
  | conditional
  deriving DecidableEq

/-- The `value` attribute of a `WorkflowMode` member. -/
def WorkflowMode.value : WorkflowMode → String
  | .sequential => "sequential"
  | .supervised => "supervised"
  | .parallel => "parallel"
  | .conditional => "conditional"

/-- Embedding of the `WorkflowMode(mode)` enum constructor lookup. -/
def parseWorkflowMode (mode : String) : Option WorkflowMode :=
  if mode = "sequential" then some .sequential
  else if mode = "supervised" then some .supervised
  else if mode = "parallel" then some .parallel
  else if mode = "conditional" then some .conditional
  else none

/-- One element of `WorkflowResult.agent_outputs`: the sequential path
appends `agent_name`/`input`/`output`/`step` records, the supervised
path appends `agent_name`/`input`/`output`/`iteration`/`delegated_by`
records (with `delegated_by` always `"manager"`, left implicit). -/
inductive OutEntry where
  | seq (agentName : String) (input : String) (output : String) (step : Nat)
  | sup (agentName : Option Json) (input : Json) (output : String) (iteration : Nat)

/-- Embedding of the `WorkflowResult` container.  `final_output` is kept
as a loaded JSON value because the supervised path stores the manager
decision's `final_answer` field, whatever its type; string outputs
appear as `Json.str`. -/
structure WorkflowResult where
  success : Bool
  finalOutput : Json
  agentOutputs : List OutEntry
  error : Option String

/-- The workflow configuration after a successful `__init__`. -/
structure Workflow where
  name : String
  agents : List WAgent
  mode : WorkflowMode
  managerAgent : Option WAgent
  maxIterations : Nat

/-- Python `manager_agent in agents`, which compares object identities,
embedded through `pyid`. -/
def managerInAgents (manager : Option WAgent) (agents : List WAgent) : Bool :=
  match manager with
  | some m => agents.any (fun a => a.pyid = m.pyid)
  | none => false

/-- Embedding of `Workflow.__init__`: the validation checks in source
order, then the `WorkflowMode(mode)` enum conversion; each `ValueError`
is an `Except.error` carrying the message. -/
def mkWorkflow (name : String) (agents : List WAgent) (mode : String)
    (manager : Option WAgent) (maxIter : Nat) : Except String Workflow :=
  if agents.isEmpty then
    .error "At least one agent must be provided."
  else if mode = "supervised" ∧ manager.isNone then
    .error "Manager agent is required for supervised mode."
  else if mode = "supervised" ∧ managerInAgents manager agents then
    .error "Manager agent should not be in the agents list."
  else
    match parseWorkflowMode mode with
    | some md => .ok ⟨name, agents, md, manager, maxIter⟩
    | none => .error ("\x27" ++ mode ++ "\x27 is not a valid WorkflowMode")

/-! #### Sequential execution -/

/-- The `for` loop of `Workflow._run_sequential` together with its
surrounding `try`/`except`: the chained input, the 1-based step counter
and the collected outputs are threaded through; the first raising agent
produces the failure result with the outputs collected so far. -/
def seqLoop : List WAgent → String → Nat → List OutEntry → WorkflowResult
  | [], current, _, outs => ⟨true, .str current, outs, none⟩
  | a :: rest, current, step, outs =>
    match a.run (.str current) with
    | .error e => ⟨false, .str "", outs, some e⟩
    | .ok out => seqLoop rest out (step + 1) (outs ++ [.seq a.name current out step])

/-- Embedding of `Workflow._run_sequential`. -/
def seqRun (agents : List WAgent) (inputData : String) : WorkflowResult :=
  seqLoop agents inputData 1 []

/-! #### Supervised execution -/

/-- A record of `context["completed_tasks"]`. -/
structure CompletedTask where
  agentName : Option Json
  input : Json
  output : String
  iteration : Nat

/-- The mutable `current_context` of `Workflow._run_supervised`. -/
structure SupCtx where
  originalInput : String
  completed : List CompletedTask
  availableAgents : List String
  status : String

/-- Conversion of a list of `Json` values. -/
def jsonListOf : List Json → JsonList
  | [] => .nil
  | j :: rest => .cons j (jsonListOf rest)

/-- The dictionary appended to `context["completed_tasks"]`, as a JSON
value for serialisation into the manager prompt. -/
def completedTaskJson (t : CompletedTask) : Json :=
  .obj (.cons "agent" (match t.agentName with | some j => j | none => .null)
    (.cons "input" t.input
      (.cons "output" (.str t.output)
        (.cons "iteration" (.num (toString t.iteration)) .nil))))

/-- Embedding of `Workflow._create_manager_prompt`. -/
def createManagerPrompt (ctx : SupCtx) : String :=
  "\nYou are a workflow manager coordinating multiple AI agents. Your job is to decide what should happen next.\n\nOriginal user input: "
    ++ ctx.originalInput
    ++ "\nAvailable agents: " ++ String.intercalate ", " ctx.availableAgents
    ++ "\nCurrent status: " ++ ctx.status
    ++ "\n\nCompleted tasks so far:\n"
    ++ dumps2 (.arr (jsonListOf (ctx.completed.map completedTaskJson))) 0
    ++ "\n\nYou must respond with a JSON object containing one of these actions:\n\n1. To delegate a task to an agent:\n\x7b\n    \"action\": \"delegate\",\n    \"agent_name\": \"agent_name_here\",\n    \"task_input\": \"specific input for the agent\",\n    \"reasoning\": \"why you chose this agent and task\"\n\x7d\n\n2. To complete the workflow:\n\x7b\n    \"action\": \"complete\",\n    \"final_answer\": \"the final response to the user\",\n    \"reasoning\": \"why the workflow is complete\"\n\x7d\n\nChoose wisely based on the context and completed tasks.\n"

/-- Embedding of `Workflow._parse_manager_decision`: a non-empty JSON
dictionary extracted from the text is the decision; otherwise text
containing `complete` (case-insensitively) is treated as a completion
carrying the raw text, and anything else is the `unknown` action. -/
def parseManagerDecision (decisionText : String) : JsonFields :=
  match wfExtractJson decisionText with
  | some (.obj (.cons k v tl)) => .cons k v tl
  | _ =>
    if strContainsB (lowerStr decisionText) "complete" then
      .cons "action" (.str "complete") (.cons "final_answer" (.str decisionText) .nil)
    else
      .cons "action" (.str "unknown") (.cons "raw_response" (.str decisionText) .nil)

/-- Embedding of `Workflow._find_agent_by_name`, applied to the loaded
`agent_name` value of the decision (possibly absent, i.e. Python
`None`). -/
def findAgentByName (agents : List WAgent) (nameVal : Option Json) : Option WAgent :=
  match agents with
  | [] => none
  | a :: rest =>
    match nameVal with
    | some j => if jsonEqStr j a.name then some a else findAgentByName rest nameVal
    | none => findAgentByName rest nameVal

/-- The Python type name of a loaded JSON value, as interpolated into
`AttributeError` messages. -/
def pyTypeName (j : Json) : String :=
  match j with
  | .null => "NoneType"
  | .bool _ => "bool"
  | .num raw => if raw.data.any (fun c => c = '.' || c = 'e' || c = 'E') then "float" else "int"
  | .str _ => "str"
  | .arr _ => "list"
  | .obj _ => "dict"

/-- The `str(e)` of the `AttributeError` raised by
`decision.get("action", "unknown").upper()` when the decision carries a
non-string `action` value. -/
def attrUpperMsg (j : Json) : String :=
  "\x27" ++ pyTypeName j ++ "\x27 object has no attribute \x27upper\x27"

/-- The `while` loop of `Workflow._run_supervised` with its surrounding
`try`/`except`, indexed by the remaining iterations, carrying the
1-based iteration counter, the context and the collected outputs.
Before the dispatch the decision log evaluates
`decision.get("action", "unknown").upper()`: a parsed non-string
`action` value therefore raises `AttributeError` inside the `try`
(failure result carrying its `str(e)`), while a missing `action` key
passes that line (the `.get` default is a string) and then raises
`KeyError` at the dispatch, producing the failure result with message
`str(e)`. -/
def supLoop (agents : List WAgent) (manager : WAgent) (inputData : String) :
    Nat → Nat → SupCtx → List OutEntry → WorkflowResult
  | 0, _, _, outs =>
    ⟨false, .str "Workflow incomplete: maximum iterations reached", outs,
      some "Maximum iterations reached"⟩
  | fuel + 1, iter, ctx, outs =>
    match manager.run (.str (createManagerPrompt ctx)) with
    | .error e => ⟨false, .str "", outs, some e⟩
    | .ok decisionText =>
      let decision := parseManagerDecision decisionText
      match dictGet decision "action" with
      | none => ⟨false, .str "", outs, some "\x27action\x27"⟩
      | some (.str act) =>
        if act = "complete" then
          ⟨true, (dictGet decision "final_answer").getD (.str decisionText), outs, none⟩
        else if act = "delegate" then
          let agentName := dictGet decision "agent_name"
          let taskInput := (dictGet decision "task_input").getD (.str inputData)
          match findAgentByName agents agentName with
          | some target =>
            match target.run taskInput with
            | .error e => ⟨false, .str "", outs, some e⟩
            | .ok agentOutput =>
              supLoop agents manager inputData fuel (iter + 1)
                { ctx with
                    completed := ctx.completed ++ [⟨agentName, taskInput, agentOutput, iter⟩],
                    status := "completed_task_with_" ++ pyStrOpt agentName }
                (outs ++ [.sup agentName taskInput agentOutput iter])
          | none =>
            supLoop agents manager inputData fuel (iter + 1)
              { ctx with status := "agent_" ++ pyStrOpt agentName ++ "_not_found" } outs
        else
          supLoop agents manager inputData fuel (iter + 1)
            { ctx with status := "unknown_action" } outs
      | some act => ⟨false, .str "", outs, some (attrUpperMsg act)⟩

/-- Embedding of `Workflow._run_supervised`. -/
def supRun (agents : List WAgent) (manager : WAgent) (maxIter : Nat)
    (inputData : String) : WorkflowResult :=
  supLoop agents manager inputData maxIter 1
    ⟨inputData, [], agents.map (fun a => a.name), "starting"⟩ []

/-- Embedding of `Workflow.run`.  The result is wrapped in `Except` so
that an exception escaping `run` would be visible as `.error`; the
supervised branch reads `self.manager_agent.name` outside the guarded
region, which would raise `AttributeError` were the manager absent, and
the declared-but-unimplemented modes return a configuration-error
result. -/
def workflowRun (w : Workflow) (inputData : String) :
    Except String WorkflowResult :=
  match w.mode with
  | .sequential => .ok (seqRun w.agents inputData)
  | .supervised =>
    match w.managerAgent with
    | some m => .ok (supRun w.agents m w.maxIterations inputData)
    | none => .error "AttributeError: \x27NoneType\x27 object has no attribute \x27name\x27"
  | md => .ok ⟨false, .str "", [], some ("Unsupported workflow mode: " ++ md.value)⟩

/-! ### Prompt embedding (`tvara/core/prompt.py` and
`tvara/utils/prompt_templates.py`) -/

/-- A tool as the prompt renderer sees it: `paramsSchema = none` models
an object without a `get_parameters_schema` attribute (the `hasattr`
check then substitutes the empty dict). -/
structure PTool where
  name : String
  description : String
  paramsSchema : Option Json

/-- The `Prompt` object state. -/
structure Prompt where
  templateName : Option String
  rawPrompt : Option String
  tools : List PTool

/-- Python truthiness of an optional string attribute. -/
def strTruthyOpt (o : Option String) : Bool :=
  match o with
  | some s => s ≠ ""
  | none => false

/-- Embedding of `Prompt.__init__` validation. -/
def mkPrompt (templateName rawPrompt : Option String) : Except String Prompt :=
  if ¬ strTruthyOpt templateName ∧ ¬ strTruthyOpt rawPrompt then
    .error "Either template_name or raw_prompt must be provided."
  else if strTruthyOpt templateName ∧ strTruthyOpt rawPrompt then
    .error "Provide only one of template_name or raw_prompt, not both."
  else .ok ⟨templateName, rawPrompt, []⟩

/-- Embedding of `Prompt.set_tools`. -/
def setTools (p : Prompt) (tools : List PTool) : Prompt :=
  { p with tools := tools }

/-- The serialised parameters schema of a tool as interpolated into
prompt text: `json.dumps(params_schema, indent=2)` when the schema is
truthy, the fixed placeholder otherwise. -/
def schemaText (ps : Option Json) : String :=
  match ps with
  | some j => if jsonTruthy j then dumps2 j 0 else "No specific parameters required"
  | none => "No specific parameters required"

/-- The module-level `prerequisite` block of `prompt.py`: the response
contract appended to raw prompts that carry tools (it describes only the
`tool_call` shape). -/
def prerequisite : String :=
  "\n### VERY IMPORTANT ###\n\nWhen using tools, you MUST use the exact parameter names and structure as specified in the tool\x27s Parameters Schema.\n\nIf a tool is available and relevant to the user\x27s request, respond ONLY with this JSON:\n\x7b\n  \"tool_call\": \x7b\n    \"tool_name\": \"<exact_tool_name>\",\n    \"tool_input\": \x7b\n      // Use the exact parameter names and types from the tool\x27s parameters schema\n    \x7d\n  \x7d\n\x7d\n\nDo NOT explain your actions. Do NOT include natural language.\nWhen using `code_tool`, always return actual executable Python code.\n\nOnly if no tool is relevant should you answer in natural language.\n"

/-- The per-tool block of `Prompt._render_raw_prompt`. -/
def rawToolInfo (t : PTool) : String :=
  "\nTool: " ++ t.name ++ "\nDescription: " ++ t.description
    ++ "\nParameters Schema: " ++ schemaText t.paramsSchema ++ "\n"

/-- Embedding of `Prompt._render_raw_prompt` (called with a truthy
`raw_prompt`, passed here explicitly). -/
def renderRawPrompt (raw : String) (tools : List PTool) : String :=
  if tools.isEmpty then
    raw ++ "\n\nNo tools available."
  else
    raw
      ++ "\n\nYou have access to the following tools with their parameter schemas:\n"
      ++ String.join (tools.map rawToolInfo)
      ++ "\n"
      ++ "\n" ++ prerequisite

/-- The per-tool block of `agent_prompt_template`. -/
def agentTemplateToolInfo (t : PTool) : String :=
  "\n- " ++ t.name ++ ": " ++ t.description
    ++ "\n  Parameters Schema: " ++ schemaText t.paramsSchema

/-- The `tools_section` of `agent_prompt_template`. -/
def agentTemplateToolsSection (tools : List PTool) : String :=
  if tools.isEmpty then "No tools available."
  else "\nAvailable tools:\n" ++ String.join (tools.map agentTemplateToolInfo) ++ "\n"

/-- Embedding of `agent_prompt_template` as invoked by `Prompt.render`
(which passes only `tools`). -/
def agentPromptTemplate (tools : List PTool) : String :=
  "You are an AI assistant that can use tools to help answer questions.\n"
    ++ agentTemplateToolsSection tools
    ++ "\n\nInstructions:\n1. Analyze the user\x27s request carefully\n2. If you need to use a tool, respond with JSON in this EXACT format: \n   \x7b\"tool_call\": \x7b\"tool_name\": \"exact_tool_name\", \"tool_input\": \x7b\"param1\": \"value1\", \"param2\": \"value2\"\x7d\x7d\x7d\n3. IMPORTANT: Use the exact parameter names and structure as specified in each tool\x27s Parameters Schema\n4. If you have enough information to answer, provide a direct response\n5. You can use multiple tools in sequence - after each tool result, decide if you need more information\n6. Current conversation context will be provided below\n\nIn case a tool call fails, state clearly \x27tool failed\x27 or \x27error executing tool\x27.\n\nExample of correct tool usage:\nIf a tool has parameters schema: \x7b\"type\": \"object\", \"properties\": \x7b\"email\": \x7b\"type\": \"string\"\x7d, \"subject\": \x7b\"type\": \"string\"\x7d\x7d\x7d\nThen use: \x7b\"tool_call\": \x7b\"tool_name\": \"tool_name\", \"tool_input\": \x7b\"email\": \"user@example.com\", \"subject\": \"Hello\"\x7d\x7d\x7d\n"

/-- The per-tool block of `basic_prompt_template`. -/
def basicTemplateToolInfo (t : PTool) : String :=
  "\nTool: " ++ t.name ++ "\nDescription: " ++ t.description
    ++ "\nParameters Schema: " ++ schemaText t.paramsSchema ++ "\n"

/-- The `tools_str` of `basic_prompt_template`. -/
def basicTemplateToolsStr (tools : List PTool) : String :=
  if tools.isEmpty then "No tools available"
  else String.intercalate "\n" (tools.map basicTemplateToolInfo)

/-- Embedding of `basic_prompt_template` as invoked by `Prompt.render`,
which passes only `tools`: the `connectors` keyword defaults to the
empty list, so the connector roster and action docs take their
placeholder branches. -/
def basicPromptTemplate (tools : List PTool) : String :=
  "\nYou are an AI assistant who is helpful and friendly.\n\nYou have access to the following tools with their parameter schemas:\n"
    ++ basicTemplateToolsStr tools
    ++ "\n\nYou are integrated with the following systems:\nno connectors\n\nHere are the supported connector actions and their expected inputs:\nNo connector actions registered.\n\nYour primary role is to assist the user by intelligently deciding whether to use a tool or a connector, or respond directly.\n\n### VERY IMPORTANT ###\n\nWhen using tools, you MUST use the exact parameter names and structure as specified in the Parameters Schema.\n\nIf a tool is available and relevant to the user\x27s request, respond ONLY with this JSON:\n\x7b\n  \"tool_call\": \x7b\n    \"tool_name\": \"<exact_tool_name>\",\n    \"tool_input\": \x7b\n      // Use the exact parameter names and types from the tool\x27s parameters schema\n    \x7d\n  \x7d\n\x7d\n\nIf a connector is more suitable, respond ONLY with this JSON:\n\x7b\n  \"connector_call\": \x7b\n    \"connector_name\": \"<connector_name>\",\n    \"connector_action\": \"<action>\",\n    \"connector_input\": \x7b\n      \"<key>\": \"<value>\",\n      ...\n    \x7d\n  \x7d\n\x7d\n\nDo NOT explain your actions. Do NOT include natural language.\nWhen using `code_tool`, always return actual executable Python code.\n\nOnly if no tool or connector is relevant should you answer in natural language.\n"

/-- Embedding of `Prompt.render`: a truthy `raw_prompt` takes the raw
path; otherwise the template registry (holding exactly
`basic_prompt_template` and `agent_prompt_template`) is consulted, an
unknown name raising `ValueError`. -/
def promptRender (p : Prompt) : Except String String :=
  if strTruthyOpt p.rawPrompt then
    .ok (renderRawPrompt (p.rawPrompt.getD "") p.tools)
  else
    match p.templateName with
    | some "basic_prompt_template" => .ok (basicPromptTemplate p.tools)
    | some "agent_prompt_template" => .ok (agentPromptTemplate p.tools)
    | some other => .error ("Prompt template \x27" ++ other ++ "\x27 not found.")
    | none => .error "Prompt template \x27None\x27 not found."

/-! ### Hierarchical construction

`tests/test_workflow.py` exercises a `Workflow(mode="hierarchical", ...)`
construction path and the supervisor predicate of `Agent`; the checked-in
`workflow.py` contains no hierarchical branch, so that branch is
modelled from the specification below.  The supervisor predicate itself
is source code (`Agent.is_supervisor`, `agent.py`). -/

/-- An agent together with its (possibly nested) sub-agents, the shape
relevant to supervision. -/
inductive AgentTree where
  | node (name : String) (model : String) (apiKey : String)
      (subAgents : List AgentTree) : AgentTree

/-- The `sub_agents` attribute. -/
def AgentTree.subAgents : AgentTree → List AgentTree
  | .node _ _ _ subs => subs

/-- Embedding of `Agent.is_supervisor` (`agent.py`): an agent is a
supervisor when it has sub-agents. -/
def AgentTree.isSupervisor (a : AgentTree) : Bool :=
  !a.subAgents.isEmpty

/-- A hierarchical workflow configuration after successful
construction. -/
structure HWorkflow where
  name : String
  agents : List AgentTree
  managerAgent : Option AgentTree

/-- Modelled from the spec: the hierarchical-mode branch of
`Workflow.__init__`, which `tests/test_workflow.py` exercises but which
is missing from the checked-in `workflow.py`.  Per the spec,
hierarchical mode requires `manager_agent` set with
`manager_agent.is_supervisor() == true` (the worker list may be empty),
and construction fails with a configuration error when `manager_agent`
is absent or has no `sub_agents`; the error messages are those the
repository's tests assert. -/
def mkHierWorkflow (name : String) (agents : List AgentTree)
    (manager : Option AgentTree) : Except String HWorkflow :=
  match manager with
  | none => .error "Manager agent is required for hierarchical mode."
  | some m =>
    if m.isSupervisor then .ok ⟨name, agents, manager⟩
    else .error "Manager agent must have sub-agents for hierarchical mode."

/-! ### Specification-side helper definitions

These definitions express expected observable values in theorem
statements; they are not part of the embedded program. -/

/-- The list of outputs of a fully successful sequential chain: agent
`i` is applied to the previous agent's output (the workflow input for
the first agent), and the chain is defined only when no agent raises. -/
def seqChainOutputs : List WAgent → String → Option (List String)
  | [], _ => some []
  | a :: rest, current =>
    match a.run (.str current) with
    | .error _ => none
    | .ok out => (seqChainOutputs rest out).map (fun outs => out :: outs)

/-- The `agent_outputs` entries a successful sequential prefix is
expected to record, with verbatim chained inputs and consecutive step
numbers starting at `step`. -/
def seqExpectedEntries : List WAgent → String → List String → Nat → List OutEntry
  | [], _, _, _ => []
  | _ :: _, _, [], _ => []
  | a :: rest, current, out :: outs, step =>
    .seq a.name current out step :: seqExpectedEntries rest out outs (step + 1)

/-- The step/iteration number carried by an `agent_outputs` entry. -/
def outStep : OutEntry → Nat
  | .seq _ _ _ step => step
  | .sup _ _ _ iter => iter

/-- The prompt sent on the first round of the tool loop, and hence the
model's first response for a given model function. -/
def firstPrompt (basePrompt inputData : String) : String :=
  buildPromptWithHistory basePrompt ["User input: " ++ inputData]

/-- The response carries a well-formed `tool_call` whose `tool_name` is
an exact match for one of the agent's tools. -/
def yieldsExistingToolCall (tools : List ATool) (response : String) : Prop :=
  ∃ fs nameJson inputJson t,
    agentExtractToolCall response = some (.obj fs) ∧
    dictGet fs "tool_name" = some nameJson ∧
    dictGet fs "tool_input" = some inputJson ∧
    findExact tools nameJson = some t

/-- No non-empty JSON dictionary is extracted from the manager response
(the condition under which `_parse_manager_decision` falls back to the
text heuristics). -/
def noTruthyDictExtracted (r : String) : Prop :=
  ∀ k v tl, wfExtractJson r ≠ some (.obj (.cons k v tl))

/-! ## Theorems -/

/-! ### Sequential execution lemmas -/

theorem seqChainOutputs_length (agents : List WAgent) :
    ∀ current outs, seqChainOutputs agents current = some outs →
      outs.length = agents.length := by
  induction agents with
  | nil =>
    intro current outs h
    simp only [seqChainOutputs, Option.some.injEq] at h
    simp [← h]
  | cons a rest ih =>
    intro current outs h
    simp only [seqChainOutputs] at h
    cases hr : a.run (.str current) with
    | error e => rw [hr] at h; simp at h
    | ok out =>
      rw [hr] at h
      obtain ⟨outs2, hchain, rfl⟩ := Option.map_eq_some'.mp h
      simp [ih out outs2 hchain]

theorem seqLoop_append (pre : List WAgent) :
    ∀ (rest : List WAgent) (current : String) (outs : List String) (step : Nat)
      (acc : List OutEntry), seqChainOutputs pre current = some outs →
      seqLoop (pre ++ rest) current step acc =
        seqLoop rest (outs.getLastD current) (step + pre.length)
          (acc ++ seqExpectedEntries pre current outs step) := by
  induction pre with
  | nil =>
    intro rest current outs step acc h
    simp only [seqChainOutputs, Option.some.injEq] at h
    subst h
    simp [seqExpectedEntries]
  | cons a pre ih =>
    intro rest current outs step acc h
    simp only [seqChainOutputs] at h
    cases hr : a.run (.str current) with
    | error e => rw [hr] at h; simp at h
    | ok out =>
      rw [hr] at h
      obtain ⟨outs2, hchain, rfl⟩ := Option.map_eq_some'.mp h
      have hstep : seqLoop ((a :: pre) ++ rest) current step acc =
          seqLoop (pre ++ rest) out (step + 1)
            (acc ++ [OutEntry.seq a.name current out step]) := by
        simp [seqLoop, hr]
      rw [hstep,
        ih rest out outs2 (step + 1) (acc ++ [OutEntry.seq a.name current out step]) hchain]
      have harith : step + 1 + pre.length = step + (pre.length + 1) := by omega
      simp only [seqExpectedEntries, List.getLastD_cons, List.append_assoc,
        List.singleton_append, List.length_cons, harith]

theorem seqExpectedEntries_steps (agents : List WAgent) :
    ∀ current outs step, seqChainOutputs agents current = some outs →
      (seqExpectedEntries agents current outs step).map outStep =
        List.range' step agents.length := by
  induction agents with
  | nil =>
    intro current outs step h
    simp only [seqChainOutputs, Option.some.injEq] at h
    subst h
    simp [seqExpectedEntries]
  | cons a rest ih =>
    intro current outs step h
    simp only [seqChainOutputs] at h
    cases hr : a.run (.str current) with
    | error e => rw [hr] at h; simp at h
    | ok out =>
      rw [hr] at h
      obtain ⟨outs2, hchain, rfl⟩ := Option.map_eq_some'.mp h
      simp [seqExpectedEntries, outStep, List.range'_succ, ih out outs2 (step + 1) hchain]

/-! ### C2: sequential pipeline, success path -/

/-- C2: in a sequential workflow, each agent is invoked on the verbatim
output of its predecessor (the first on the workflow input); when no
agent raises, the run succeeds with the last output as `final_output`
and one `agent_outputs` entry per agent, in pipeline order, with step
numbers 1..n. -/
theorem sequential_pipeline_success (agents : List WAgent) (inputData : String)
    (outs : List String) (h : seqChainOutputs agents inputData = some outs) :
    seqRun agents inputData =
      ⟨true, .str (outs.getLastD inputData),
        seqExpectedEntries agents inputData outs 1, none⟩
    ∧ (seqExpectedEntries agents inputData outs 1).map outStep =
        List.range' 1 agents.length
    ∧ outs.length = agents.length := by
  refine ⟨?_, seqExpectedEntries_steps agents inputData outs 1 h,
    seqChainOutputs_length agents inputData outs h⟩
  have hmain := seqLoop_append agents [] inputData outs 1 [] h
  simpa [seqRun, seqLoop] using hmain

/-- Witness for C2 at a concrete two-agent pipeline. -/
theorem sequential_pipeline_success_witness :
    seqRun [⟨"alpha", 1, fun _ => Except.ok "outA"⟩,
            ⟨"beta", 2, fun _ => Except.ok "outB"⟩] "x" =
      ⟨true, .str "outB",
        [.seq "alpha" "x" "outA" 1, .seq "beta" "outA" "outB" 2], none⟩ :=
  (sequential_pipeline_success
    [⟨"alpha", 1, fun _ => Except.ok "outA"⟩, ⟨"beta", 2, fun _ => Except.ok "outB"⟩]
    "x" ["outA", "outB"] rfl).1

/-! ### C7: sequential pipeline, abort path -/

/-- C7: if the i-th agent of a sequential workflow raises, the run
aborts at once with `success = false`, empty `final_output`, the raised
message as `error`, and exactly the i-1 entries completed before the
failure. -/
theorem sequential_abort (pre : List WAgent) (bad : WAgent) (post : List WAgent)
    (inputData : String) (outs : List String) (e : String)
    (hpre : seqChainOutputs pre inputData = some outs)
    (hbad : bad.run (.str (outs.getLastD inputData)) = .error e) :
    seqRun (pre ++ bad :: post) inputData =
      ⟨false, .str "", seqExpectedEntries pre inputData outs 1, some e⟩
    ∧ (seqExpectedEntries pre inputData outs 1).length = pre.length := by
  constructor
  · have hmain := seqLoop_append pre (bad :: post) inputData outs 1 [] hpre
    have hrun : seqRun (pre ++ bad :: post) inputData =
        seqLoop (pre ++ bad :: post) inputData 1 [] := rfl
    rw [hrun, hmain]
    set last := outs.getLastD inputData with hlast
    simp [seqLoop, hbad]
  · have hsteps := congrArg List.length (seqExpectedEntries_steps pre inputData outs 1 hpre)
    simpa using hsteps

/-- Witness for C7: the second of three agents raises, exactly one
entry is kept. -/
theorem sequential_abort_witness :
    seqRun [⟨"alpha", 1, fun _ => Except.ok "outA"⟩,
            ⟨"beta", 2, fun _ => Except.error "boom"⟩,
            ⟨"gamma", 3, fun _ => Except.ok "outC"⟩] "x" =
      ⟨false, .str "", [.seq "alpha" "x" "outA" 1], some "boom"⟩ :=
  (sequential_abort [⟨"alpha", 1, fun _ => Except.ok "outA"⟩]
    ⟨"beta", 2, fun _ => Except.error "boom"⟩
    [⟨"gamma", 3, fun _ => Except.ok "outC"⟩] "x" ["outA"] "boom" rfl rfl).1

/-! ### Agent loop lemmas -/

theorem agentExtractJson_empty : agentExtractJson "" = none := rfl

theorem agentExtractToolCall_empty : agentExtractToolCall "" = none := rfl

theorem executeTool_exact {tools : List ATool} {nameJson inputJson : Json} {t : ATool}
    (h : findExact tools nameJson = some t) :
    executeTool tools nameJson inputJson = t.run inputJson := by
  simp [executeTool, h]

theorem executeTool_sub {tools : List ATool} {s : String} {inputJson : Json} {t : ATool}
    (h1 : findExact tools (.str s) = none) (h2 : findSub tools s = some t) :
    executeTool tools (.str s) inputJson = t.run inputJson := by
  simp [executeTool, h1, h2]

theorem executeTool_notFound {tools : List ATool} {s : String} {inputJson : Json}
    (h1 : findExact tools (.str s) = none) (h2 : findSub tools s = none) :
    executeTool tools (.str s) inputJson = .error (toolNotFoundMsg s tools) := by
  simp [executeTool, h1, h2]

theorem extract_some_ne_empty {r : String} {j : Json}
    (h : agentExtractToolCall r = some j) : r ≠ "" := by
  intro he
  rw [he, agentExtractToolCall_empty] at h
  cases h

/-- One round of the tool loop when the response carries a well-formed
tool call: the tool is executed and the loop continues either way. -/
theorem agentLoop_step_toolcall (basePrompt : String) (tools : List ATool)
    (model : String → String) (fuel : Nat) (history : List String) (calls : Nat)
    (fs : JsonFields) (nameJson inputJson : Json)
    (h1 : agentExtractToolCall (model (buildPromptWithHistory basePrompt history)) =
      some (.obj fs))
    (h2 : dictGet fs "tool_name" = some nameJson)
    (h3 : dictGet fs "tool_input" = some inputJson) :
    agentLoop basePrompt tools model (fuel + 1) history calls =
      match executeTool tools nameJson inputJson with
      | .ok toolResult =>
        agentLoop basePrompt tools model fuel
          (history
            ++ ["Assistant called tool \x27" ++ pyStr nameJson
                  ++ "\x27 with input: " ++ pyStr inputJson,
                "Tool result: " ++ toolResult]) (calls + 1)
      | .error e =>
        agentLoop basePrompt tools model fuel
          (history ++ ["Error executing tool \x27" ++ pyStr nameJson ++ "\x27: " ++ e])
          (calls + 1) := by
  have hne := extract_some_ne_empty h1
  simp [agentLoop, hne, h1, h2, h3]

/-- One round of the tool loop when the response carries no tool call,
is non-empty and has no failure phrase: it is returned as final. -/
theorem agentLoop_final (basePrompt : String) (tools : List ATool)
    (model : String → String) (fuel : Nat) (history : List String) (calls : Nat)
    (hne : model (buildPromptWithHistory basePrompt history) ≠ "")
    (hnotc : agentExtractToolCall (model (buildPromptWithHistory basePrompt history)) = none)
    (hnof : hasFailurePhrase (model (buildPromptWithHistory basePrompt history)) = false) :
    agentLoop basePrompt tools model (fuel + 1) history calls =
      ⟨.ok (model (buildPromptWithHistory basePrompt history)), history, calls + 1⟩ := by
  simp [agentLoop, hne, hnotc, hnof]

theorem isEmpty_false_of_ne_nil {α : Type _} {l : List α} (h : l ≠ []) :
    l.isEmpty = false := by
  cases l with
  | nil => exact absurd rfl h
  | cons a l => rfl

/-! ### C3: loop exhaustion under a persistently tool-calling model -/

/-- C3: with a non-empty tool list and a model that always answers with
a well-formed `tool_call` naming an existing tool, `run` performs
exactly `max_iterations` model calls and then returns the fixed
exhaustion message as a normal result. -/
theorem agent_exhausts_iterations (basePrompt : String) (tools : List ATool)
    (model : String → String) (maxIter : Nat) (inputData : String)
    (htools : tools ≠ [])
    (hmodel : ∀ prompt, yieldsExistingToolCall tools (model prompt)) :
    (agentRun basePrompt tools model maxIter inputData).result = .ok maxIterationsMsg
    ∧ (agentRun basePrompt tools model maxIter inputData).modelCalls = maxIter := by
  have hloop : ∀ fuel history calls,
      (agentLoop basePrompt tools model fuel history calls).result = .ok maxIterationsMsg
      ∧ (agentLoop basePrompt tools model fuel history calls).modelCalls = calls + fuel := by
    intro fuel
    induction fuel with
    | zero => intro history calls; exact ⟨rfl, rfl⟩
    | succ fuel ih =>
      intro history calls
      obtain ⟨fs, nameJson, inputJson, t, h1, h2, h3, h4⟩ :=
        hmodel (buildPromptWithHistory basePrompt history)
      rw [agentLoop_step_toolcall basePrompt tools model fuel history calls fs
        nameJson inputJson h1 h2 h3, executeTool_exact h4]
      cases hrun : t.run inputJson with
      | ok toolResult =>
        refine ⟨(ih _ _).1, ?_⟩
        rw [(ih _ _).2]
        omega
      | error e =>
        refine ⟨(ih _ _).1, ?_⟩
        rw [(ih _ _).2]
        omega
  have hempty := isEmpty_false_of_ne_nil htools
  unfold agentRun
  rw [hempty]
  simpa using hloop maxIter ["User input: " ++ inputData] 0

/-- Witness for C3: a calculator agent whose model always asks for the
calculator runs out after exactly 3 model calls. -/
theorem agent_exhausts_iterations_witness :
    (agentRun "BASE" [⟨"calculator", fun _ => Except.ok "ok"⟩]
      (fun _ => "\x7b\"tool_call\": \x7b\"tool_name\": \"calculator\", \"tool_input\": \"2\"\x7d\x7d")
      3 "q").result = .ok maxIterationsMsg
    ∧ (agentRun "BASE" [⟨"calculator", fun _ => Except.ok "ok"⟩]
      (fun _ => "\x7b\"tool_call\": \x7b\"tool_name\": \"calculator\", \"tool_input\": \"2\"\x7d\x7d")
      3 "q").modelCalls = 3 :=
  agent_exhausts_iterations "BASE" [⟨"calculator", fun _ => Except.ok "ok"⟩]
    (fun _ => "\x7b\"tool_call\": \x7b\"tool_name\": \"calculator\", \"tool_input\": \"2\"\x7d\x7d")
    3 "q" (by simp)
    (fun _ => ⟨.cons "tool_name" (.str "calculator") (.cons "tool_input" (.str "2") .nil),
      .str "calculator", .str "2", ⟨"calculator", fun _ => Except.ok "ok"⟩,
      rfl, rfl, rfl, rfl⟩)

theorem agentRun_eq_loop (basePrompt : String) (tools : List ATool)
    (model : String → String) (maxIter : Nat) (inputData : String) (h : tools ≠ []) :
    agentRun basePrompt tools model maxIter inputData =
      agentLoop basePrompt tools model maxIter ["User input: " ++ inputData] 0 := by
  unfold agentRun
  rw [isEmpty_false_of_ne_nil h]
  rfl

/-! ### C4: single round trip on a plain first response (corrected) -/

/-- C4 counterexample: the empty first response contains no parseable
tool call and no failure phrase, yet `run` does not return it — the
loop records it and continues, here making 2 model calls and ending
with the exhaustion message. -/
theorem agent_first_response_empty_counterexample :
    agentExtractToolCall "" = none
    ∧ hasFailurePhrase "" = false
    ∧ (agentRun "B" [⟨"calculator", fun _ => Except.ok "r"⟩]
        (fun _ => "") 2 "q").modelCalls = 2
    ∧ (agentRun "B" [⟨"calculator", fun _ => Except.ok "r"⟩]
        (fun _ => "") 2 "q").result = .ok maxIterationsMsg :=
  ⟨rfl, rfl, rfl, rfl⟩

/-- C4 (amended): for an agent with tools, when the model's first
response is non-empty, contains no parseable tool call and no failure
phrase, `run` returns that first response text unchanged after exactly
one model call. -/
theorem agent_single_round_trip (basePrompt : String) (tools : List ATool)
    (model : String → String) (maxIter : Nat) (inputData : String)
    (htools : tools ≠ []) (hiter : 0 < maxIter)
    (hne : model (firstPrompt basePrompt inputData) ≠ "")
    (hnotc : agentExtractToolCall (model (firstPrompt basePrompt inputData)) = none)
    (hnof : hasFailurePhrase (model (firstPrompt basePrompt inputData)) = false) :
    agentRun basePrompt tools model maxIter inputData =
      ⟨.ok (model (firstPrompt basePrompt inputData)),
        ["User input: " ++ inputData], 1⟩ := by
  obtain ⟨fuel, rfl⟩ : ∃ f, maxIter = f + 1 := ⟨maxIter - 1, by omega⟩
  rw [agentRun_eq_loop _ _ _ _ _ htools]
  exact agentLoop_final basePrompt tools model fuel ["User input: " ++ inputData] 0
    hne hnotc hnof

/-- Witness for the amended C4 at a concrete plain-text response. -/
theorem agent_single_round_trip_witness :
    agentRun "B" [⟨"calculator", fun _ => Except.ok "r"⟩]
      (fun _ => "The answer is 42.") 10 "q" =
      ⟨.ok "The answer is 42.", ["User input: q"], 1⟩ :=
  agent_single_round_trip "B" [⟨"calculator", fun _ => Except.ok "r"⟩]
    (fun _ => "The answer is 42.") 10 "q" (by simp) (by omega) (by simp) rfl rfl

/-! ### C5: connector_call responses (corrected) -/

/-- C5 counterexample: a response consisting of a JSON object with a
`connector_call` key (and no `tool_call` key) is not acted on — the
loop treats it as the final answer and returns the raw JSON text after
one model call. -/
theorem connector_call_counterexample :
    (∃ fs, agentExtractJson
        "\x7b\"connector_call\": \x7b\"connector_name\": \"slack\", \"connector_action\": \"send\", \"connector_input\": \x7b\x7d\x7d\x7d"
        = some (.obj fs)
      ∧ (dictGet fs "connector_call").isSome = true
      ∧ dictGet fs "tool_call" = none)
    ∧ agentRun "B" [⟨"calculator", fun _ => Except.ok "r"⟩]
        (fun _ => "\x7b\"connector_call\": \x7b\"connector_name\": \"slack\", \"connector_action\": \"send\", \"connector_input\": \x7b\x7d\x7d\x7d")
        5 "q" =
      ⟨.ok "\x7b\"connector_call\": \x7b\"connector_name\": \"slack\", \"connector_action\": \"send\", \"connector_input\": \x7b\x7d\x7d\x7d",
        ["User input: q"], 1⟩ :=
  ⟨⟨_, rfl, rfl, rfl⟩, rfl⟩

/-- C5 (amended): the resolution loop acts only on `tool_call`; a
response whose extracted JSON object carries a `connector_call` key but
no `tool_call` key is treated as a candidate final answer, and (absent
a failure phrase, as a first response) is returned unchanged after a
single model call — no connector is invoked. -/
theorem connector_call_final_answer (basePrompt : String) (tools : List ATool)
    (model : String → String) (maxIter : Nat) (inputData : String)
    (htools : tools ≠ []) (hiter : 0 < maxIter) (fs : JsonFields)
    (hjson : agentExtractJson (model (firstPrompt basePrompt inputData)) = some (.obj fs))
    (hconn : (dictGet fs "connector_call").isSome = true)
    (htc : dictGet fs "tool_call" = none)
    (hnof : hasFailurePhrase (model (firstPrompt basePrompt inputData)) = false) :
    agentRun basePrompt tools model maxIter inputData =
      ⟨.ok (model (firstPrompt basePrompt inputData)),
        ["User input: " ++ inputData], 1⟩ := by
  have hnotc : agentExtractToolCall (model (firstPrompt basePrompt inputData)) = none := by
    simp [agentExtractToolCall, hjson, htc]
  have hne : model (firstPrompt basePrompt inputData) ≠ "" := by
    intro he
    rw [he, agentExtractJson_empty] at hjson
    cases hjson
  obtain ⟨fuel, rfl⟩ : ∃ f, maxIter = f + 1 := ⟨maxIter - 1, by omega⟩
  rw [agentRun_eq_loop _ _ _ _ _ htools]
  exact agentLoop_final basePrompt tools model fuel ["User input: " ++ inputData] 0
    hne hnotc hnof

/-- Witness for the amended C5 at a concrete connector-call response. -/
theorem connector_call_final_answer_witness :
    agentRun "BASE" [⟨"tool_a", fun _ => Except.ok "r"⟩]
      (fun _ => "\x7b\"connector_call\": \x7b\"connector_name\": \"github\", \"connector_action\": \"star\", \"connector_input\": \x7b\x7d\x7d\x7d")
      4 "task" =
      ⟨.ok "\x7b\"connector_call\": \x7b\"connector_name\": \"github\", \"connector_action\": \"star\", \"connector_input\": \x7b\x7d\x7d\x7d",
        ["User input: task"], 1⟩ :=
  connector_call_final_answer "BASE" [⟨"tool_a", fun _ => Except.ok "r"⟩]
    (fun _ => "\x7b\"connector_call\": \x7b\"connector_name\": \"github\", \"connector_action\": \"star\", \"connector_input\": \x7b\x7d\x7d\x7d")
    4 "task" (by simp) (by omega)
    (.cons "connector_call"
      (.obj (.cons "connector_name" (.str "github")
        (.cons "connector_action" (.str "star")
          (.cons "connector_input" (.obj .nil) .nil)))) .nil)
    rfl rfl rfl rfl

/-! ### C6: tool-name resolution order and the not-found path -/

theorem agentLoop_not_found (basePrompt : String) (tools : List ATool)
    (model : String → String) (nameStr : String) (inputJson : Json)
    (hex : findExact tools (.str nameStr) = none)
    (hsub : findSub tools nameStr = none)
    (hmodel : ∀ prompt : String, agentExtractToolCall (model prompt) =
      some (.obj (.cons "tool_name" (.str nameStr) (.cons "tool_input" inputJson .nil)))) :
    ∀ fuel history calls,
      agentLoop basePrompt tools model fuel history calls =
        ⟨.ok maxIterationsMsg,
          history ++ List.replicate fuel
            ("Error executing tool \x27" ++ nameStr ++ "\x27: " ++ toolNotFoundMsg nameStr tools),
          calls + fuel⟩ := by
  intro fuel
  induction fuel with
  | zero => intro history calls; simp [agentLoop]
  | succ fuel ih =>
    intro history calls
    rw [agentLoop_step_toolcall basePrompt tools model fuel history calls _ _ _
      (hmodel _) rfl rfl]
    simp only [executeTool_notFound hex hsub]
    rw [ih _ _]
    simp [pyStr, List.replicate_succ]
    omega

/-- C6: exact tool-name match takes precedence over substring matching;
among substring matches the first in tool-list order is invoked; and
when nothing matches, `run` appends an error history entry each round
and keeps looping instead of letting the exception escape. -/
theorem tool_resolution (tools : List ATool) (nameStr : String) (inputJson : Json) :
    (∀ t, findExact tools (.str nameStr) = some t →
      executeTool tools (.str nameStr) inputJson = t.run inputJson)
    ∧ (∀ t, findExact tools (.str nameStr) = none → findSub tools nameStr = some t →
      executeTool tools (.str nameStr) inputJson = t.run inputJson)
    ∧ (findExact tools (.str nameStr) = none → findSub tools nameStr = none →
      tools ≠ [] →
      ∀ (basePrompt : String) (model : String → String) (maxIter : Nat) (inputData : String),
        (∀ prompt : String, agentExtractToolCall (model prompt) =
          some (.obj (.cons "tool_name" (.str nameStr) (.cons "tool_input" inputJson .nil)))) →
        agentRun basePrompt tools model maxIter inputData =
          ⟨.ok maxIterationsMsg,
            ["User input: " ++ inputData] ++ List.replicate maxIter
              ("Error executing tool \x27" ++ nameStr ++ "\x27: " ++ toolNotFoundMsg nameStr tools),
            maxIter⟩) := by
  refine ⟨fun t h => executeTool_exact h, fun t h1 h2 => executeTool_sub h1 h2,
    fun hex hsub htools basePrompt model maxIter inputData hmodel => ?_⟩
  rw [agentRun_eq_loop _ _ _ _ _ htools,
    agentLoop_not_found basePrompt tools model nameStr inputJson hex hsub hmodel
      maxIter _ 0]
  simp

/-- Witness for C6: exact match beats an earlier substring match, the
first substring match in list order wins, and an unmatched name yields
error entries and a normal exhaustion result. -/
theorem tool_resolution_witness :
    executeTool [⟨"calc", fun _ => Except.ok "A"⟩, ⟨"calculator", fun _ => Except.ok "B"⟩]
      (.str "calculator") .null = Except.ok "B"
    ∧ executeTool [⟨"zzz", fun _ => Except.ok "C"⟩, ⟨"CALCX", fun _ => Except.ok "D"⟩,
        ⟨"calc2", fun _ => Except.ok "E"⟩] (.str "calc") .null = Except.ok "D"
    ∧ agentRun "B" [⟨"alpha", fun _ => Except.ok "r"⟩]
        (fun _ => "\x7b\"tool_call\": \x7b\"tool_name\": \"zzz\", \"tool_input\": \"q\"\x7d\x7d")
        2 "u" =
      ⟨.ok maxIterationsMsg,
        ["User input: u"] ++ List.replicate 2
          ("Error executing tool \x27zzz\x27: "
            ++ toolNotFoundMsg "zzz" [⟨"alpha", fun _ => Except.ok "r"⟩]),
        2⟩ :=
  ⟨(tool_resolution
      [⟨"calc", fun _ => Except.ok "A"⟩, ⟨"calculator", fun _ => Except.ok "B"⟩]
      "calculator" .null).1 ⟨"calculator", fun _ => Except.ok "B"⟩ rfl,
   (tool_resolution
      [⟨"zzz", fun _ => Except.ok "C"⟩, ⟨"CALCX", fun _ => Except.ok "D"⟩,
        ⟨"calc2", fun _ => Except.ok "E"⟩] "calc" .null).2.1
      ⟨"CALCX", fun _ => Except.ok "D"⟩ rfl rfl,
   (tool_resolution [⟨"alpha", fun _ => Except.ok "r"⟩] "zzz" (.str "q")).2.2
      rfl rfl (by simp) "B"
      (fun _ => "\x7b\"tool_call\": \x7b\"tool_name\": \"zzz\", \"tool_input\": \"q\"\x7d\x7d")
      2 "u" (fun _ => rfl)⟩

/-! ### C1: `Workflow.run` always returns a `WorkflowResult` -/

theorem parseWorkflowMode_supervised {mode : String}
    (h : parseWorkflowMode mode = some .supervised) : mode = "supervised" := by
  unfold parseWorkflowMode at h
  split_ifs at h with h1 h2 h3 h4 <;> simp_all

/-- C1: for every validly constructed workflow (either mode) and every
input, `run` returns a `WorkflowResult` and never propagates an
exception, whatever the worker agents, the manager, or decision parsing
do (their exceptions are `Except.error` values the embedding threads
through every unguarded position). -/
theorem workflow_run_total (name : String) (agents : List WAgent) (mode : String)
    (manager : Option WAgent) (maxIter : Nat) (w : Workflow) (inputData : String)
    (h : mkWorkflow name agents mode manager maxIter = .ok w) :
    ∃ res : WorkflowResult, workflowRun w inputData = .ok res := by
  unfold mkWorkflow at h
  split_ifs at h with h1 h2 h3
  cases hp : parseWorkflowMode mode with
  | none => rw [hp] at h; cases h
  | some md =>
    rw [hp] at h
    cases h
    cases md with
    | sequential => exact ⟨_, rfl⟩
    | supervised =>
      have hmode := parseWorkflowMode_supervised hp
      subst hmode
      cases hm : manager with
      | none => exact absurd ⟨rfl, by rw [hm]; rfl⟩ h2
      | some m => exact ⟨supRun agents m maxIter inputData, by simp [workflowRun, hm]⟩
    | parallel => exact ⟨_, rfl⟩
    | conditional => exact ⟨_, rfl⟩

/-- Witness for C1: a sequential workflow whose only agent raises still
yields a result. -/
theorem workflow_run_total_witness :
    ∃ res, workflowRun
      ⟨"wf", [⟨"a", 1, fun _ => Except.error "boom"⟩], .sequential, none, 10⟩ "x" =
      .ok res :=
  workflow_run_total "wf" [⟨"a", 1, fun _ => Except.error "boom"⟩] "sequential"
    none 10 ⟨"wf", [⟨"a", 1, fun _ => Except.error "boom"⟩], .sequential, none, 10⟩
    "x" rfl

/-! ### C8: manager responses without a recognised action (corrected) -/

theorem parseManagerDecision_fallback {r : String} (h : noTruthyDictExtracted r) :
    parseManagerDecision r =
      (if strContainsB (lowerStr r) "complete" then
        .cons "action" (.str "complete") (.cons "final_answer" (.str r) .nil)
      else .cons "action" (.str "unknown") (.cons "raw_response" (.str r) .nil)) := by
  unfold parseManagerDecision
  cases hw : wfExtractJson r with
  | none => rfl
  | some j =>
    cases j with
    | null => rfl
    | bool b => rfl
    | num raw => rfl
    | str s => rfl
    | arr xs => rfl
    | obj fs =>
      cases fs with
      | nil => rfl
      | cons k v tl => exact absurd hw (h k v tl)

theorem supLoop_unknown {r : String} (agents : List WAgent) (manager : WAgent)
    (inputData : String)
    (hmgr : ∀ s : String, manager.run (.str s) = .ok r)
    (act : String)
    (ha : dictGet (parseManagerDecision r) "action" = some (.str act))
    (hc : act ≠ "complete")
    (hd : act ≠ "delegate") :
    ∀ fuel iter ctx outs,
      supLoop agents manager inputData fuel iter ctx outs =
        ⟨false, .str "Workflow incomplete: maximum iterations reached", outs,
          some "Maximum iterations reached"⟩ := by
  intro fuel
  induction fuel with
  | zero => intro iter ctx outs; rfl
  | succ fuel ih =>
    intro iter ctx outs
    simp only [supLoop, hmgr, ha, hc, hd, if_false]
    exact ih _ _ _

theorem supLoop_nonstr_action {r : String} (agents : List WAgent) (manager : WAgent)
    (inputData : String)
    (hmgr : ∀ s : String, manager.run (.str s) = .ok r)
    (act : Json)
    (ha : dictGet (parseManagerDecision r) "action" = some act)
    (hns : ∀ s, act ≠ Json.str s) :
    ∀ fuel iter ctx outs,
      supLoop agents manager inputData (fuel + 1) iter ctx outs =
        ⟨false, .str "", outs, some (attrUpperMsg act)⟩ := by
  intro fuel iter ctx outs
  cases act with
  | str s => exact absurd rfl (hns s)
  | null => simp only [supLoop, hmgr, ha]
  | bool b => simp only [supLoop, hmgr, ha]
  | num raw => simp only [supLoop, hmgr, ha]
  | arr xs => simp only [supLoop, hmgr, ha]
  | obj fs => simp only [supLoop, hmgr, ha]

/-- C8 counterexample: a manager response whose JSON parses to a
dictionary with an unrecognised action and whose raw text contains
"complete" does not terminate the workflow with that text — the loop
records "unknown_action" and runs to exhaustion. -/
theorem supervised_unknown_action_counterexample :
    strContainsB (lowerStr "\x7b\"action\": \"standby\", \"note\": \"complete\"\x7d")
      "complete" = true
    ∧ dictGet (parseManagerDecision "\x7b\"action\": \"standby\", \"note\": \"complete\"\x7d")
        "action" = some (.str "standby")
    ∧ supRun [⟨"a", 1, fun _ => Except.ok "out"⟩]
        ⟨"mgr", 9, fun _ => Except.ok "\x7b\"action\": \"standby\", \"note\": \"complete\"\x7d"⟩
        2 "t" =
      ⟨false, .str "Workflow incomplete: maximum iterations reached", [],
        some "Maximum iterations reached"⟩ :=
  ⟨rfl, rfl, rfl⟩

/-- C8 (amended): the complete-in-text fallback applies only to manager
responses from which no non-empty JSON dictionary is extracted: such a
response containing "complete" (case-insensitively) terminates the
workflow successfully with the raw text as final answer.  A response
whose decision carries a string `action` that is neither "complete"
nor "delegate" records "unknown_action" and the loop keeps going (to
exhaustion under a constant manager) without aborting; a decision
carrying a non-string `action` value instead aborts at once with a
failure result, because the decision log's
`decision.get("action", "unknown").upper()` raises `AttributeError`
inside the guarded loop body. -/
theorem supervised_fallback_and_unknown (agents : List WAgent) (mgrName : String)
    (mgrId : Nat) (r : String) (maxIter : Nat) (inputData : String) :
    (noTruthyDictExtracted r → strContainsB (lowerStr r) "complete" = true →
      0 < maxIter →
      supRun agents ⟨mgrName, mgrId, fun _ => Except.ok r⟩ maxIter inputData =
        ⟨true, .str r, [], none⟩)
    ∧ (∀ act : String, dictGet (parseManagerDecision r) "action" = some (.str act) →
        act ≠ "complete" → act ≠ "delegate" →
        supRun agents ⟨mgrName, mgrId, fun _ => Except.ok r⟩ maxIter inputData =
          ⟨false, .str "Workflow incomplete: maximum iterations reached", [],
            some "Maximum iterations reached"⟩)
    ∧ (∀ act : Json, dictGet (parseManagerDecision r) "action" = some act →
        (∀ s, act ≠ Json.str s) → 0 < maxIter →
        supRun agents ⟨mgrName, mgrId, fun _ => Except.ok r⟩ maxIter inputData =
          ⟨false, .str "", [], some (attrUpperMsg act)⟩) := by
  refine ⟨?_, ?_, ?_⟩
  · intro hno hcomp hiter
    obtain ⟨fuel, rfl⟩ : ∃ f, maxIter = f + 1 := ⟨maxIter - 1, by omega⟩
    show supLoop _ _ _ (fuel + 1) 1 _ [] = _
    simp only [supLoop, parseManagerDecision_fallback hno, hcomp, if_true]
    simp [dictGet]
  · intro act ha hc hd
    exact supLoop_unknown agents ⟨mgrName, mgrId, fun _ => Except.ok r⟩ inputData
      (fun s => rfl) act ha hc hd maxIter 1 _ []
  · intro act ha hns hiter
    obtain ⟨fuel, rfl⟩ : ∃ f, maxIter = f + 1 := ⟨maxIter - 1, by omega⟩
    exact supLoop_nonstr_action agents ⟨mgrName, mgrId, fun _ => Except.ok r⟩
      inputData (fun s => rfl) act ha hns fuel 1 _ []

/-- Witness for the amended C8: an unparseable completion phrase
completes with the raw text; an unrecognised string action loops to
exhaustion; a numeric action aborts with the `AttributeError`
message. -/
theorem supervised_fallback_and_unknown_witness :
    supRun [⟨"a", 1, fun _ => Except.ok "out"⟩]
      ⟨"mgr", 9, fun _ => Except.ok "The task is complete."⟩ 3 "t" =
      ⟨true, .str "The task is complete.", [], none⟩
    ∧ supRun [⟨"a", 1, fun _ => Except.ok "out"⟩]
        ⟨"mgr", 9, fun _ => Except.ok "\x7b\"action\": \"wait\"\x7d"⟩ 3 "t" =
      ⟨false, .str "Workflow incomplete: maximum iterations reached", [],
        some "Maximum iterations reached"⟩
    ∧ supRun [⟨"a", 1, fun _ => Except.ok "out"⟩]
        ⟨"mgr", 9, fun _ => Except.ok "\x7b\"action\": 7\x7d"⟩ 3 "t" =
      ⟨false, .str "", [],
        some "\x27int\x27 object has no attribute \x27upper\x27"⟩ :=
  ⟨(supervised_fallback_and_unknown [⟨"a", 1, fun _ => Except.ok "out"⟩] "mgr" 9
      "The task is complete." 3 "t").1
      (by
        intro k v tl h
        have hnone : wfExtractJson "The task is complete." = none := rfl
        rw [hnone] at h
        cases h)
      rfl (by omega),
   (supervised_fallback_and_unknown [⟨"a", 1, fun _ => Except.ok "out"⟩] "mgr" 9
      "\x7b\"action\": \"wait\"\x7d" 3 "t").2.1 "wait"
      (by
        have hp : parseManagerDecision "\x7b\"action\": \"wait\"\x7d" =
            .cons "action" (.str "wait") .nil := rfl
        rw [hp]
        rfl)
      (by decide) (by decide),
   (supervised_fallback_and_unknown [⟨"a", 1, fun _ => Except.ok "out"⟩] "mgr" 9
      "\x7b\"action\": 7\x7d" 3 "t").2.2 (.num "7")
      (by
        have hp : parseManagerDecision "\x7b\"action\": 7\x7d" =
            .cons "action" (.num "7") .nil := rfl
        rw [hp]
        rfl)
      (fun s h => Json.noConfusion h) (by omega)⟩

/-! ### C9: hierarchical-mode construction (modelled from the spec) -/

/-- C9: hierarchical-mode workflow construction succeeds exactly when a
manager agent is supplied and `is_supervisor()` holds of it, and fails
with the dedicated configuration errors when the manager is absent or
has no sub-agents.  (Settled against `mkHierWorkflow`, modelled from
the spec because the hierarchical branch of `Workflow.__init__` is not
in the checked-in source; `is_supervisor` itself is source code.) -/
theorem hierarchical_construction (name : String) (agents : List AgentTree)
    (manager : Option AgentTree) :
    ((∃ w, mkHierWorkflow name agents manager = .ok w) ↔
      ∃ m, manager = some m ∧ m.isSupervisor = true)
    ∧ (manager = none →
      mkHierWorkflow name agents manager =
        .error "Manager agent is required for hierarchical mode.")
    ∧ (∀ m, manager = some m → m.subAgents = [] →
      mkHierWorkflow name agents manager =
        .error "Manager agent must have sub-agents for hierarchical mode.") := by
  refine ⟨?_, ?_, ?_⟩
  · cases manager with
    | none => simp [mkHierWorkflow]
    | some m =>
      cases hm : m.isSupervisor with
      | true => simp [mkHierWorkflow, hm]
      | false => simp [mkHierWorkflow, hm]
  · intro h
    subst h
    rfl
  · intro m hm hsub
    subst hm
    have hfalse : m.isSupervisor = false := by
      cases m with
      | node n mo k subs =>
        simp only [AgentTree.subAgents] at hsub
        simp [AgentTree.isSupervisor, AgentTree.subAgents, hsub]
    simp [mkHierWorkflow, hfalse]

/-- Witness for C9 at concrete agent trees. -/
theorem hierarchical_construction_witness :
    (∃ w, mkHierWorkflow "h" []
      (some (.node "Supervisor" "gemini" "k" [.node "Worker" "gemini" "k" []])) = .ok w)
    ∧ mkHierWorkflow "h" [] none =
        .error "Manager agent is required for hierarchical mode."
    ∧ mkHierWorkflow "h" [] (some (.node "Manager" "gemini" "k" [])) =
        .error "Manager agent must have sub-agents for hierarchical mode." :=
  ⟨(hierarchical_construction "h" []
      (some (.node "Supervisor" "gemini" "k" [.node "Worker" "gemini" "k" []]))).1.mpr
      ⟨.node "Supervisor" "gemini" "k" [.node "Worker" "gemini" "k" []], rfl, rfl⟩,
   (hierarchical_construction "h" [] none).2.1 rfl,
   (hierarchical_construction "h" [] (some (.node "Manager" "gemini" "k" []))).2.2
      (.node "Manager" "gemini" "k" []) rfl rfl⟩

/-! ### C10: the render contract (corrected) -/

theorem subScan_append_right (needle : List Char) :
    ∀ xs ys, subScan needle ys = true → subScan needle (xs ++ ys) = true := by
  intro xs
  induction xs with
  | nil => intro ys h; simpa using h
  | cons c rest ih => intro ys h; simp [subScan, ih ys h]

theorem strContainsB_append_right (a b sub : String) (h : strContainsB b sub = true) :
    strContainsB (a ++ b) sub = true := by
  unfold strContainsB at *
  rw [String.data_append]
  exact subScan_append_right sub.data a.data b.data h

/-- C10 counterexample: a raw prompt with the empty tool list renders
to the raw text plus "No tools available." and carries no response
contract at all (neither a `tool_call` nor a `connector_call` shape). -/
theorem prompt_render_no_contract_counterexample :
    mkPrompt none (some "p") = .ok ⟨none, some "p", []⟩
    ∧ promptRender ⟨none, some "p", []⟩ = .ok "p\n\nNo tools available."
    ∧ strContainsB "p\n\nNo tools available." "tool_call" = false
    ∧ strContainsB "p\n\nNo tools available." "connector_call" = false :=
  ⟨rfl, rfl, rfl, rfl⟩

/-- C10 (amended): a raw prompt renders with the fixed contract block —
which describes only the `tool_call` shape — exactly when its tool list
is non-empty; with the empty tool list it renders to the raw text plus
"No tools available." and no contract block.  The two registered
templates embed their instruction blocks for every tool list, the basic
template including the `connector_call` shape. -/
theorem prompt_render_contract (tn : Option String) (raw : String) (tools : List PTool)
    (hraw : raw ≠ "") :
    (tools = [] →
      promptRender ⟨tn, some raw, tools⟩ = .ok (raw ++ "\n\nNo tools available."))
    ∧ (tools ≠ [] →
      promptRender ⟨tn, some raw, tools⟩ =
        .ok (raw
          ++ "\n\nYou have access to the following tools with their parameter schemas:\n"
          ++ String.join (tools.map rawToolInfo) ++ "\n" ++ "\n" ++ prerequisite))
    ∧ strContainsB prerequisite "tool_call" = true
    ∧ strContainsB (agentPromptTemplate tools) "tool_call" = true
    ∧ strContainsB (basicPromptTemplate tools) "connector_call" = true
    ∧ promptRender ⟨some "agent_prompt_template", none, tools⟩ =
        .ok (agentPromptTemplate tools)
    ∧ promptRender ⟨some "basic_prompt_template", none, tools⟩ =
        .ok (basicPromptTemplate tools) := by
  refine ⟨?_, ?_, ?_, ?_, ?_, rfl, rfl⟩
  · intro h
    subst h
    simp [promptRender, strTruthyOpt, hraw, renderRawPrompt]
  · intro h
    simp [promptRender, strTruthyOpt, hraw, renderRawPrompt,
      isEmpty_false_of_ne_nil h]
  · rfl
  · unfold agentPromptTemplate
    exact strContainsB_append_right _ _ _ rfl
  · unfold basicPromptTemplate
    exact strContainsB_append_right _ _ _ rfl

/-- Witness for the amended C10: both raw-prompt branches at concrete
inputs. -/
theorem prompt_render_contract_witness :
    promptRender ⟨none, some "You are helpful.", []⟩ =
      .ok ("You are helpful." ++ "\n\nNo tools available.")
    ∧ promptRender ⟨none, some "You are helpful.", [⟨"t1", "d1", none⟩]⟩ =
      .ok ("You are helpful."
        ++ "\n\nYou have access to the following tools with their parameter schemas:\n"
        ++ String.join ([(⟨"t1", "d1", none⟩ : PTool)].map rawToolInfo)
        ++ "\n" ++ "\n" ++ prerequisite) :=
  ⟨(prompt_render_contract none "You are helpful." [] (by decide)).1 rfl,
   (prompt_render_contract none "You are helpful." [⟨"t1", "d1", none⟩]
      (by decide)).2.1 (by simp)⟩

end Tvara
